import Mathlib

/-!
Verification of the bakery dashboard (`pages/07_수행평가.py`): a shallow
embedding of its data loading (`load_data`), item classifier
(`map_item_category`) and the four aggregation queries driving the two
dashboard tabs, together with proofs of the specified properties.

Tables are embedded as Lean lists of row structures; pandas operations are
embedded as explicit list operations: `dropna(subset=['Items'])` on a table
read by `read_csv` (which parses an empty `Items` cell as missing) drops
exactly the rows whose `Items` field is empty; `pd.Categorical(col, cats)`
maps values outside `cats` to null; `value_counts()` counts the occurrences
of each distinct value, listing distinct values in first-seen order and
sorting by count descending with a stable sort; selecting `.iloc[0]` from an
empty selection raises `IndexError`, embedded as `Option.none`.
-/

namespace Bakery

/-- The four `Daypart` category values, ordered, from `load_data`. -/
inductive Daypart
  | Morning
  | Afternoon
  | Evening
  | Night
deriving DecidableEq, Repr

/-- One row of `Bakery.csv` as read by `read_csv`: columns `TransactionNo`,
`Items`, `DayType`, `Daypart`. A missing `Items` cell is read as the empty
string (pandas parses an empty CSV cell as NaN). -/
structure RawRow where
  transactionNo : Nat
  items : String
  dayType : String
  daypart : String
deriving DecidableEq, Repr

/-- A row of the loaded table after `load_data`: the `Daypart` column has
been coerced to the categorical set (`none` = outside the category set). -/
structure Row where
  transactionNo : Nat
  items : String
  dayType : String
  daypart : Option Daypart
deriving DecidableEq, Repr

/-- A row of the table after the classifier enrichment added the
`Category` and `Sub_Category` columns. -/
structure DerivedRow where
  transactionNo : Nat
  items : String
  dayType : String
  daypart : Option Daypart
  category : String
  sub_category : String
deriving DecidableEq, Repr

/-- `daypart_order = ['Morning', 'Afternoon', 'Evening', 'Night']`. -/
def daypart_order : List String :=
  ["Morning", "Afternoon", "Evening", "Night"]

/-- `pd.Categorical(value, categories=daypart_order)` on one cell: a value
in the category set is kept, anything else becomes null. -/
def parseDaypart (s : String) : Option Daypart :=
  if s = "Morning" then some Daypart.Morning
  else if s = "Afternoon" then some Daypart.Afternoon
  else if s = "Evening" then some Daypart.Evening
  else if s = "Night" then some Daypart.Night
  else none

/-- The per-row effect of `load_data`'s Daypart coercion. -/
def loadRow (r : RawRow) : Row :=
  { transactionNo := r.transactionNo
    items := r.items
    dayType := r.dayType
    daypart := parseDaypart r.daypart }

/-- `load_data`: drop the rows whose `Items` is missing
(`df.dropna(subset=['Items'])`; `read_csv` reads an empty cell as NaN,
embedded as `""`), then coerce `Daypart` to the ordered category set. -/
def load_data (t : List RawRow) : List Row :=
  (t.filter (fun r => decide (r.items ≠ ""))).map loadRow

/-- Python's `needle in hay` substring test, on character lists. -/
def occursIn (needle : List Char) : List Char → Bool
  | [] => needle.isEmpty
  | c :: hs => needle.isPrefixOf (c :: hs) || occursIn needle hs

/-- Trailing/leading whitespace removal, Python's `str.strip()`. -/
def trimWs (l : List Char) : List Char :=
  ((l.dropWhile Char.isWhitespace).reverse.dropWhile Char.isWhitespace).reverse

/-- `str(item).lower().strip()`, the normalization at the top of
`map_item_category`. -/
def normItem (s : String) : List Char :=
  trimWs (s.data.map Char.toLower)

/-- The `meals` keyword list of `map_item_category`. -/
def meals : List String :=
  ["sandwich", "spanish brunch", "soup", "tacos/fajita", "focaccia",
   "scandinavian", "baguette", "scone", "bowl", "toast", "miso", "truffle",
   "bacon", "eggs", "extra salami or feta", "choc spread", "brownie",
   "tiffin"]

/-- The rule cascade of `map_item_category`, applied to the already
normalized item name: meal keywords, then the drink chain, then the
dessert chain (exact equality for `"bread"`), else `(Other, other)`. -/
def classifyNorm (item : List Char) : String × String :=
  if meals.any (fun m => occursIn m.data item) then ("Meal", "meal")
  else if occursIn "coffee".data item || occursIn "latte".data item ||
      occursIn "espresso".data item || occursIn "cappuccino".data item then
    ("Drink", "coffee")
  else if occursIn "tea".data item || occursIn "hot chocolate".data item then
    ("Drink", "tea")
  else if occursIn "coke".data item || occursIn "juice".data item ||
      occursIn "smoothies".data item || occursIn "fanta".data item then
    ("Drink", "sweet")
  else if item = "bread".data then ("Dessert", "bread")
  else if occursIn "cookies".data item || occursIn "biscotti".data item ||
      occursIn "granola".data item then ("Dessert", "crunch")
  else if occursIn "cake".data item || occursIn "tart".data item ||
      occursIn "fudge".data item then ("Dessert", "sweet")
  else if occursIn "pastry".data item || occursIn "medialuna".data item ||
      occursIn "muffin".data item then ("Dessert", "soft")
  else ("Other", "other")

/-- `map_item_category(item)`: lower-case and strip the item name, then run
the rule cascade. -/
def map_item_category (item : String) : String × String :=
  classifyNorm (normItem item)

/-- The classifier enrichment of one loaded row
(`df[['Category', 'Sub_Category']] = df['Items'].apply(...)`). -/
def enrichRow (r : Row) : DerivedRow :=
  { transactionNo := r.transactionNo
    items := r.items
    dayType := r.dayType
    daypart := r.daypart
    category := (map_item_category r.items).1
    sub_category := (map_item_category r.items).2 }

/-- The Derived Table: load, then classify every row. -/
def derivedTable (t : List RawRow) : List DerivedRow :=
  (load_data t).map enrichRow

/-- The Meal keyword set exactly as the specification enumerates it. -/
def specMeals : List String :=
  ["sandwich", "spanish brunch", "soup", "tacos/fajita", "focaccia",
   "scandinavian", "baguette", "scone", "bowl", "toast", "miso", "truffle",
   "bacon", "eggs", "extra salami or feta", "choc spread", "brownie",
   "tiffin"]

/-- Modelled from the spec: the reference classification cascade of spec
section 4.1, as a function of the already lower-cased, trimmed item name —
Meal keyword set first, then the exclusive Drink chain, then the exclusive
Dessert chain (exact equality for bread), else (Other, other), first match
wins. To be compared with the source's `map_item_category`. -/
def classifySpec (norm : List Char) : String × String :=
  if specMeals.any (fun m => occursIn m.data norm) then ("Meal", "meal")
  else if occursIn "coffee".data norm || occursIn "latte".data norm ||
      occursIn "espresso".data norm || occursIn "cappuccino".data norm then
    ("Drink", "coffee")
  else if occursIn "tea".data norm || occursIn "hot chocolate".data norm then
    ("Drink", "tea")
  else if occursIn "coke".data norm || occursIn "juice".data norm ||
      occursIn "smoothies".data norm || occursIn "fanta".data norm then
    ("Drink", "sweet")
  else if norm = "bread".data then ("Dessert", "bread")
  else if occursIn "cookies".data norm || occursIn "biscotti".data norm ||
      occursIn "granola".data norm then ("Dessert", "crunch")
  else if occursIn "cake".data norm || occursIn "tart".data norm ||
      occursIn "fudge".data norm then ("Dessert", "sweet")
  else if occursIn "pastry".data norm || occursIn "medialuna".data norm ||
      occursIn "muffin".data norm then ("Dessert", "soft")
  else ("Other", "other")

/-- The fixed two-level taxonomy of the classifier. -/
def taxonomy : List (String × String) :=
  [("Meal", "meal"), ("Drink", "coffee"), ("Drink", "tea"),
   ("Drink", "sweet"), ("Dessert", "bread"), ("Dessert", "crunch"),
   ("Dessert", "sweet"), ("Dessert", "soft"), ("Other", "other")]

/-- Comparison by descending count, the sort order of `value_counts()`. -/
def cntGe (p q : String × Nat) : Prop :=
  q.2 ≤ p.2

instance : DecidableRel cntGe :=
  fun p q => inferInstanceAs (Decidable (q.2 ≤ p.2))

instance : IsTotal (String × Nat) cntGe :=
  ⟨fun a b => Nat.le_total b.2 a.2⟩

instance : IsTrans (String × Nat) cntGe :=
  ⟨fun _ _ _ hab hbc => Nat.le_trans hbc hab⟩

/-- Distinct values of a list in first-seen order (the unique-value order
of `value_counts()`), with an accumulator of values already seen. -/
def uniqueAux (seen : List String) : List String → List String
  | [] => []
  | x :: xs => if x ∈ seen then uniqueAux seen xs else x :: uniqueAux (x :: seen) xs

/-- Distinct values of a list in first-seen order. -/
def uniqueItems (l : List String) : List String :=
  uniqueAux [] l

/-- Each distinct value paired with its number of occurrences, in
first-seen order (the counts underlying `value_counts()`). -/
def countsOf (l : List String) : List (String × Nat) :=
  (uniqueItems l).map (fun x => (x, l.count x))

/-- `Series.value_counts()`: occurrence counts of the distinct values,
sorted by count descending; the sort is stable, so equal counts stay in
first-seen order. -/
def value_counts (l : List String) : List (String × Nat) :=
  List.insertionSort cntGe (countsOf l)

/-- The rows matching one daypart: `df[df['Daypart'] == daypart]`
(rows whose coerced Daypart is null match no daypart). -/
def daypartRows (t : List DerivedRow) (d : Daypart) : List DerivedRow :=
  t.filter (fun r => decide (r.daypart = some d))

/-- `daypart_top_5` generalized over the limit:
`df[df['Daypart'] == daypart]['Items'].value_counts().head(limit)`. -/
def topItemsByDaypart (t : List DerivedRow) (d : Daypart) (limit : Nat) :
    List (String × Nat) :=
  (value_counts ((daypartRows t d).map (fun r => r.items))).take limit

/-- The rows matching one (Category, Sub_Category) pair:
`df[(df['Category'] == c) & (df['Sub_Category'] == sc)]`. -/
def categoryRows (t : List DerivedRow) (c sc : String) : List DerivedRow :=
  t.filter (fun r => decide (r.category = c ∧ r.sub_category = sc))

/-- `category_items` generalized over the limit:
`df[(df['Category'] == c) & (df['Sub_Category'] == sc)]['Items'].value_counts().head(limit)`. -/
def topItemsByCategory (t : List DerivedRow) (c sc : String) (limit : Nat) :
    List (String × Nat) :=
  (value_counts ((categoryRows t c sc).map (fun r => r.items))).take limit

/-- The rows matching one DayType value: `df[df['DayType'] == dt]`. -/
def dayTypeRows (t : List DerivedRow) (dt : String) : List DerivedRow :=
  t.filter (fun r => decide (r.dayType = dt))

/-- `df.groupby('DayType')['TransactionNo'].nunique()` at one DayType value:
the number of distinct TransactionNo values among that DayType's rows. -/
def transactionCountByDayType (t : List DerivedRow) (dt : String) : Nat :=
  ((dayTypeRows t dt).map (fun r => r.transactionNo)).dedup.length

/-- `sales_by_day[sales_by_day['DayType'] == dt]['Total_Transactions'].iloc[0]`:
`groupby` produces a row only for DayType values that occur, and `.iloc[0]`
on an empty selection raises `IndexError`, embedded as `none`. -/
def groupCount (t : List DerivedRow) (dt : String) : Option Nat :=
  match dayTypeRows t dt with
  | [] => none
  | _ :: _ => some (transactionCountByDayType t dt)

/-- The winner of the weekend-vs-weekday comparison. -/
inductive Winner
  | Weekend
  | Weekday
deriving DecidableEq, Repr

/-- `if weekend_sales > weekday_sales: ... else: ...` — Weekend wins on
strict greater-than, Weekday otherwise (so Weekday wins ties). -/
def pickWinner (w d : Nat) : Winner :=
  if d < w then Winner.Weekend else Winner.Weekday

/-- The weekend-vs-weekday comparison of tab 2: read the Weekend and
Weekday transaction counts with `.iloc[0]` (raising, i.e. `none`, when
either group is absent) and pick the winner. -/
def compareWeekendVsWeekday (t : List DerivedRow) :
    Option (Nat × Nat × Winner) :=
  match groupCount t "Weekend", groupCount t "Weekday" with
  | some w, some d => some (w, d, pickWinner w d)
  | _, _ => none

/-- A Derived-Table row for concrete test tables. -/
def mkRow (n : Nat) (it dt : String) (d : Option Daypart) : DerivedRow :=
  { transactionNo := n
    items := it
    dayType := dt
    daypart := d
    category := (map_item_category it).1
    sub_category := (map_item_category it).2 }

/-- Concrete table for the TransactionNo deduplication example:
rows (T1, Weekday), (T1, Weekday), (T2, Weekday). -/
def exTableC3 : List DerivedRow :=
  [mkRow 1 "bread" "Weekday" (some Daypart.Morning),
   mkRow 1 "tea" "Weekday" (some Daypart.Morning),
   mkRow 2 "bread" "Weekday" (some Daypart.Afternoon)]

/-- Concrete table with one Weekend and one Weekday transaction. -/
def exTableC4 : List DerivedRow :=
  [mkRow 1 "bread" "Weekend" (some Daypart.Morning),
   mkRow 2 "bread" "Weekday" (some Daypart.Morning)]

/-- Concrete table with three Morning rows and one Afternoon row. -/
def exTableC5 : List DerivedRow :=
  [mkRow 1 "scone" "Weekday" (some Daypart.Morning),
   mkRow 2 "tea" "Weekday" (some Daypart.Morning),
   mkRow 3 "scone" "Weekday" (some Daypart.Morning),
   mkRow 4 "coffee" "Weekday" (some Daypart.Afternoon)]

/-! ### Helper lemmas -/

theorem mem_of_mem_uniqueAux :
    ∀ (seen l : List String) (a : String), a ∈ uniqueAux seen l → a ∈ l
  | _, [], a, h => absurd h (List.not_mem_nil a)
  | seen, x :: xs, a, h => by
    unfold uniqueAux at h
    split at h
    · exact List.mem_cons_of_mem _ (mem_of_mem_uniqueAux _ _ _ h)
    · rcases List.mem_cons.1 h with h1 | h2
      · exact h1 ▸ List.mem_cons_self _ _
      · exact List.mem_cons_of_mem _ (mem_of_mem_uniqueAux _ _ _ h2)

theorem filter_orderedInsert (c : Nat) (p : String × Nat) :
    ∀ l : List (String × Nat),
      (List.orderedInsert cntGe p l).filter (fun q => decide (q.2 = c)) =
        ((p :: l).filter (fun q => decide (q.2 = c)))
  | [] => rfl
  | b :: l => by
    by_cases hpb : cntGe p b
    · simp only [List.orderedInsert, if_pos hpb]
    · have hlt : p.2 < b.2 := Nat.lt_of_not_le hpb
      simp only [List.orderedInsert, if_neg hpb]
      by_cases hb : b.2 = c
      · have hp : ¬ p.2 = c := by omega
        simp [List.filter_cons, filter_orderedInsert c p l, hb, hp]
      · simp [List.filter_cons, filter_orderedInsert c p l, hb]

theorem filter_insertionSort (c : Nat) :
    ∀ m : List (String × Nat),
      (List.insertionSort cntGe m).filter (fun q => decide (q.2 = c)) =
        m.filter (fun q => decide (q.2 = c))
  | [] => rfl
  | p :: m => by
    rw [List.insertionSort, filter_orderedInsert c p]
    simp only [List.filter_cons, filter_insertionSort c m]

theorem take_filter_leads {α : Type} (f : α → Bool) :
    ∀ (n : Nat) (l : List α), (l.take n).filter f <+: l.filter f
  | _, [] => by simp
  | 0, _ :: _ => ⟨_, rfl⟩
  | n + 1, x :: xs => by
    obtain ⟨t, ht⟩ := take_filter_leads f n xs
    by_cases hx : f x
    · exact ⟨t, by simp [List.filter_cons, hx, ht]⟩
    · exact ⟨t, by simp [List.filter_cons, hx, ht]⟩

theorem pickWinner_weekend_iff (w d : Nat) :
    pickWinner w d = Winner.Weekend ↔ d < w := by
  unfold pickWinner
  split <;> simp_all

theorem groupCount_some {t : List DerivedRow} {dt : String} {n : Nat}
    (h : groupCount t dt = some n) : n = transactionCountByDayType t dt := by
  unfold groupCount at h
  split at h
  · exact absurd h (by simp)
  · exact (Option.some_injective _ h).symm

theorem groupCount_none_iff (t : List DerivedRow) (dt : String) :
    groupCount t dt = none ↔ dayTypeRows t dt = [] := by
  unfold groupCount
  split <;> simp_all

theorem mem_load_data {t : List RawRow} {r : Row} :
    r ∈ load_data t ↔ ∃ r0, r0 ∈ t ∧ r0.items ≠ "" ∧ r = loadRow r0 := by
  unfold load_data
  rw [List.mem_map]
  constructor
  · rintro ⟨r0, hr0, rfl⟩
    obtain ⟨h1, h2⟩ := List.mem_filter.1 hr0
    exact ⟨r0, h1, of_decide_eq_true h2, rfl⟩
  · rintro ⟨r0, h1, h2, rfl⟩
    exact ⟨r0, List.mem_filter.2 ⟨h1, decide_eq_true h2⟩, rfl⟩

/-! ### Claim theorems -/

/-- Claim C6: the Dessert bread rule is exact equality on the normalized
string, not substring containment: `map_item_category "bread"` is
(Dessert, bread), while `map_item_category "BREAD CRUMBS"` — which contains
"bread" but is not equal to it after normalization — matches no other rule
and returns (Other, other). -/
theorem bread_exact_equality_c6 :
    map_item_category "bread" = ("Dessert", "bread") ∧
      map_item_category "BREAD CRUMBS" = ("Other", "other") := by
  exact ⟨by decide, by decide⟩

/-- Claim C8: `map_item_category` is a total function: for every item-name
string it returns exactly one (Category, SubCategory) pair drawn from the
fixed taxonomy, with unmatched strings mapping to (Other, other) — the
final branch of the cascade, which is in the taxonomy list. -/
theorem classify_total_c8 :
    ∀ s : String, map_item_category s ∈ taxonomy := by
  intro s
  unfold map_item_category classifyNorm
  repeat' split
  all_goals decide

/-- Claim C2: `map_item_category` equals the specification's reference
cascade (`classifySpec`) evaluated on the lower-cased, trimmed form of the
input; and first match wins, so "sandwich coffee", which contains both a
Meal keyword and a Drink keyword, classifies as (Meal, meal). -/
theorem classify_matches_spec_c2 :
    (∀ s : String, map_item_category s = classifySpec (normItem s)) ∧
      map_item_category "sandwich coffee" = ("Meal", "meal") :=
  ⟨fun _ => rfl, by decide⟩

/-- Claim C3: `transactionCountByDayType` counts distinct TransactionNo
values per DayType, not rows: the count equals the cardinality of the set
of TransactionNo values among that DayType's rows, and on the example table
[(T1, Weekday), (T1, Weekday), (T2, Weekday)] the Weekday count is 2 while
the row count is 3. -/
theorem transaction_count_distinct_c3 :
    (∀ (t : List DerivedRow) (dt : String),
        transactionCountByDayType t dt =
          ((dayTypeRows t dt).map (fun r => r.transactionNo)).toFinset.card) ∧
      transactionCountByDayType exTableC3 "Weekday" = 2 ∧
      (dayTypeRows exTableC3 "Weekday").length = 3 :=
  ⟨fun _ _ => (List.card_toFinset _).symm, by decide, by decide⟩

/-- Claim C9: loading and classification are deterministic with no hidden
state: `map_item_category` depends only on the lower-cased, trimmed item
string, and computing the Derived Table twice from the same input yields
identical tables. -/
theorem deterministic_c9 :
    (∀ s₁ s₂ : String, normItem s₁ = normItem s₂ →
        map_item_category s₁ = map_item_category s₂) ∧
      ∀ t : List RawRow, derivedTable t = derivedTable t :=
  ⟨fun _ _ h => by unfold map_item_category; rw [h], fun _ => rfl⟩

/-- Witness for C9 at a concrete input: "  BREAD  " normalizes like
"bread", so both classify identically. -/
theorem deterministic_c9_witness :
    map_item_category "  BREAD  " = map_item_category "bread" :=
  deterministic_c9.1 "  BREAD  " "bread" (by decide)

/-- Claim C4: `compareWeekendVsWeekday` chooses the winner by strict
greater-than on the deduplicated transaction counts — whenever it returns
(w, d, win), w and d are the distinct-transaction counts and
win = Weekend iff d < w; on counts (120, 80) the winner is Weekend and on
the tie (100, 100) the winner is Weekday. -/
theorem compare_winner_c4 :
    (∀ (t : List DerivedRow) (w d : Nat) (win : Winner),
        compareWeekendVsWeekday t = some (w, d, win) →
          w = transactionCountByDayType t "Weekend" ∧
            d = transactionCountByDayType t "Weekday" ∧
            (win = Winner.Weekend ↔ d < w)) ∧
      pickWinner 120 80 = Winner.Weekend ∧
      pickWinner 100 100 = Winner.Weekday := by
  refine ⟨?_, by decide, by decide⟩
  intro t w d win h
  unfold compareWeekendVsWeekday at h
  rcases hW : groupCount t "Weekend" with _ | nW
  · rw [hW] at h; exact absurd h (by simp)
  · rcases hD : groupCount t "Weekday" with _ | nD
    · rw [hW, hD] at h; exact absurd h (by simp)
    · rw [hW, hD] at h
      have h' := Option.some.inj h
      obtain ⟨rfl, rfl, rfl⟩ : nW = w ∧ nD = d ∧ pickWinner nW nD = win := by
        simpa [Prod.ext_iff] using h'
      exact ⟨groupCount_some hW, groupCount_some hD, pickWinner_weekend_iff _ _⟩

/-- Witness for C4 on a concrete table with one Weekend and one Weekday
transaction: the counts tie at 1 and the winner is Weekday. -/
theorem compare_winner_c4_witness :
    (1 : Nat) = transactionCountByDayType exTableC4 "Weekend" ∧
      (1 : Nat) = transactionCountByDayType exTableC4 "Weekday" ∧
      (Winner.Weekday = Winner.Weekend ↔ (1 : Nat) < 1) :=
  compare_winner_c4.1 exTableC4 1 1 Winner.Weekday (by decide)

/-- Claim C5: `topItemsByDaypart` returns at most `limit` entries, sorted
by count descending, every returned item occurs in some row of the selected
daypart, and count ties are broken stably: for each count value, the
entries carrying it form a leading segment of the first-seen-in-source-order
count list of the filtered rows. -/
theorem top_items_by_daypart_c5 :
    ∀ (t : List DerivedRow) (d : Daypart) (k : Nat),
      (topItemsByDaypart t d k).length ≤ k ∧
        List.Sorted cntGe (topItemsByDaypart t d k) ∧
        (∀ p : String × Nat, p ∈ topItemsByDaypart t d k →
            ∃ r, r ∈ t ∧ r.daypart = some d ∧ r.items = p.1) ∧
        (∀ c : Nat,
            (topItemsByDaypart t d k).filter (fun q => decide (q.2 = c)) <+:
              (countsOf ((daypartRows t d).map (fun r => r.items))).filter
                (fun q => decide (q.2 = c))) := by
  intro t d k
  refine ⟨List.length_take_le _ _, ?_, ?_, ?_⟩
  · unfold topItemsByDaypart value_counts
    exact (List.sorted_insertionSort cntGe _).sublist (List.take_sublist _ _)
  · intro p hp
    unfold topItemsByDaypart at hp
    have hp1 : p ∈ value_counts ((daypartRows t d).map (fun r => r.items)) :=
      List.mem_of_mem_take hp
    unfold value_counts at hp1
    have hp2 : p ∈ countsOf ((daypartRows t d).map (fun r => r.items)) :=
      (List.mem_insertionSort cntGe).1 hp1
    unfold countsOf at hp2
    obtain ⟨x, hx, rfl⟩ := List.mem_map.1 hp2
    have hx2 : x ∈ (daypartRows t d).map (fun r => r.items) :=
      mem_of_mem_uniqueAux _ _ _ hx
    obtain ⟨r, hr, hri⟩ := List.mem_map.1 hx2
    obtain ⟨hrt, hrd⟩ := List.mem_filter.1 hr
    exact ⟨r, hrt, of_decide_eq_true hrd, hri⟩
  · intro c
    unfold topItemsByDaypart value_counts
    rw [← filter_insertionSort c
      (countsOf ((daypartRows t d).map (fun r => r.items)))]
    exact take_filter_leads _ k _

/-- Witness for C5 on a concrete table: ("scone", 2) is returned for
Morning, and indeed some row of the table is a Morning row selling scone. -/
theorem top_items_by_daypart_c5_witness :
    ∃ r, r ∈ exTableC5 ∧ r.daypart = some Daypart.Morning ∧
      r.items = ("scone", 2).1 :=
  (top_items_by_daypart_c5 exTableC5 Daypart.Morning 5).2.2.1
    ("scone", 2) (by decide)

/-- Claim C7: after load, every record has a non-empty Items value — rows
whose Items field is missing (read as the empty string) are dropped at load
time and never enter the Derived Table — and no other rows are removed:
every raw row with non-empty Items is kept, and every loaded row comes from
such a raw row. -/
theorem load_drops_empty_items_c7 :
    (∀ (t : List RawRow) (r : Row), r ∈ load_data t → r.items ≠ "") ∧
      (∀ (t : List RawRow) (r : DerivedRow), r ∈ derivedTable t →
          r.items ≠ "") ∧
      (∀ (t : List RawRow) (r0 : RawRow), r0 ∈ t → r0.items ≠ "" →
          loadRow r0 ∈ load_data t) ∧
      (∀ (t : List RawRow) (r : Row), r ∈ load_data t →
          ∃ r0, r0 ∈ t ∧ r0.items ≠ "" ∧ r = loadRow r0) := by
  refine ⟨?_, ?_, ?_, ?_⟩
  · intro t r h
    obtain ⟨r0, -, h2, rfl⟩ := mem_load_data.1 h
    exact h2
  · intro t r h
    unfold derivedTable at h
    obtain ⟨r1, h1, rfl⟩ := List.mem_map.1 h
    obtain ⟨r0, -, h2, rfl⟩ := mem_load_data.1 h1
    exact h2
  · intro t r0 h1 h2
    exact mem_load_data.2 ⟨r0, h1, h2, rfl⟩
  · intro t r h
    exact mem_load_data.1 h

/-- Witness for C7: a raw row with non-empty Items is kept by the load. -/
theorem load_drops_empty_items_c7_witness :
    loadRow ⟨1, "bread", "Weekday", "Morning"⟩ ∈
      load_data [⟨1, "bread", "Weekday", "Morning"⟩] :=
  load_drops_empty_items_c7.2.2.1 _ _ (by decide) (by decide)

/-- Claim C10: at load time the Daypart column is coerced to the category
set {Morning, Afternoon, Evening, Night}: a value in the set is kept, any
value outside it becomes null, and null-Daypart rows are excluded from
`topItemsByDaypart` for every daypart argument — removing them from the
table changes no daypart-filtered view. -/
theorem daypart_coercion_c10 :
    (∀ s : String, s ∉ daypart_order → parseDaypart s = none) ∧
      (∀ s : String, s ∈ daypart_order → ∃ d, parseDaypart s = some d) ∧
      (∀ (t : List DerivedRow) (d : Daypart) (k : Nat),
          topItemsByDaypart (t.filter (fun r => decide (r.daypart ≠ none))) d k =
            topItemsByDaypart t d k) := by
  refine ⟨?_, ?_, ?_⟩
  · intro s hs
    simp only [daypart_order, List.mem_cons, List.not_mem_nil, or_false,
      not_or] at hs
    obtain ⟨h1, h2, h3, h4⟩ := hs
    simp [parseDaypart, h1, h2, h3, h4]
  · intro s hs
    simp only [daypart_order, List.mem_cons, List.not_mem_nil, or_false] at hs
    rcases hs with rfl | rfl | rfl | rfl
    · exact ⟨Daypart.Morning, by decide⟩
    · exact ⟨Daypart.Afternoon, by decide⟩
    · exact ⟨Daypart.Evening, by decide⟩
    · exact ⟨Daypart.Night, by decide⟩
  · intro t d k
    have hff : (t.filter (fun r => decide (r.daypart ≠ none))).filter
        (fun r => decide (r.daypart = some d)) =
        t.filter (fun r => decide (r.daypart = some d)) := by
      rw [List.filter_filter]
      apply List.filter_congr
      intro r _
      by_cases h : r.daypart = some d <;> simp [h]
    unfold topItemsByDaypart daypartRows
    rw [hff]

/-- Witness for C10: "Brunch" is outside the category set and becomes null,
"Evening" is in the set and is kept. -/
theorem daypart_coercion_c10_witness :
    parseDaypart "Brunch" = none ∧ ∃ d, parseDaypart "Evening" = some d :=
  ⟨daypart_coercion_c10.1 "Brunch" (by decide),
    daypart_coercion_c10.2.1 "Evening" (by decide)⟩

/-- Claim C1 (amended): with no matching rows, `topItemsByDaypart` and
`topItemsByCategory` return the empty sequence and the per-DayType distinct
transaction count is zero; but `compareWeekendVsWeekday` is NOT total: it
fails (IndexError at `.iloc[0]`, embedded as `none`) exactly when the table
has no Weekend rows or no Weekday rows. -/
theorem empty_result_c1 :
    (∀ (t : List DerivedRow) (d : Daypart) (k : Nat),
        daypartRows t d = [] → topItemsByDaypart t d k = []) ∧
      (∀ (t : List DerivedRow) (c sc : String) (k : Nat),
          categoryRows t c sc = [] → topItemsByCategory t c sc k = []) ∧
      (∀ (t : List DerivedRow) (dt : String),
          dayTypeRows t dt = [] → transactionCountByDayType t dt = 0) ∧
      (∀ t : List DerivedRow,
          compareWeekendVsWeekday t = none ↔
            dayTypeRows t "Weekend" = [] ∨ dayTypeRows t "Weekday" = []) := by
  refine ⟨?_, ?_, ?_, ?_⟩
  · intro t d k h
    unfold topItemsByDaypart
    rw [h]
    show List.take k [] = []
    exact List.take_nil
  · intro t c sc k h
    unfold topItemsByCategory
    rw [h]
    show List.take k [] = []
    exact List.take_nil
  · intro t dt h
    unfold transactionCountByDayType
    rw [h]
    rfl
  · intro t
    rw [← groupCount_none_iff t "Weekend", ← groupCount_none_iff t "Weekday"]
    unfold compareWeekendVsWeekday
    rcases groupCount t "Weekend" with _ | nW <;>
      rcases groupCount t "Weekday" with _ | nD <;> simp

/-- Counterexample to C1 as stated: on a table holding a single Weekday
row, `compareWeekendVsWeekday` is not defined (the Weekend group is absent,
so `.iloc[0]` raises, i.e. the embedded comparison is `none`). -/
theorem empty_result_c1_cex :
    compareWeekendVsWeekday [mkRow 1 "bread" "Weekday" (some Daypart.Morning)] =
      none := by
  decide

/-- Witness for C1 (amended) at concrete inputs: a daypart with no matching
rows yields the empty sequence and a DayType with no rows yields count 0. -/
theorem empty_result_c1_witness :
    topItemsByDaypart [mkRow 1 "bread" "Weekday" (some Daypart.Morning)]
        Daypart.Evening 5 = [] ∧
      transactionCountByDayType
        [mkRow 1 "bread" "Weekday" (some Daypart.Morning)] "Weekend" = 0 :=
  ⟨empty_result_c1.1 _ _ 5 (by decide), empty_result_c1.2.2.1 _ _ (by decide)⟩

end Bakery
